import Mathlib

/-!
Shallow embedding of `src/main.rs` from the `rules_rs` repository: a small
rule-based validator for `Driver` entities.

Modelling choices:
* `u8` ages are modelled as `ℕ` (only order comparisons occur, and the order on
  `u8` values embeds in `ℕ`).
* `f32` alcohol levels are modelled as `ℚ`: the code only compares levels with
  `>`, and the order on finite `f32` values embeds order-preservingly in `ℚ`.
* `DateTime<Utc>` is modelled as `ℤ` (a timestamp; the code only compares
  dates with `>=`).
* A boxed `dyn Rule<Driver, DriverError>` trait object is a pure function of
  the driver (rules take `&self` and `&Driver`, with no interior mutability),
  so it is modelled as a function `Driver → Except DriverError Unit`,
  mirroring `Result<(), DriverError>`.
* `Result::unwrap_err` panics on an `Ok` value; the panic is modelled as
  `none`, propagated through `validate` by `List.mapM` over `Option`.
-/

namespace RulesRs

/-- `LicenceType` from the source (categories A..DE). -/
inductive LicenceType where
  | A
  | A1
  | B
  | C
  | D
  | BE
  | CE
  | DE
deriving DecidableEq

/-- `Licence`: a licence category together with an expiration timestamp. -/
structure Licence where
  licence_type : LicenceType
  expiration : ℤ
deriving DecidableEq

/-- `Driver`: the entity being validated. -/
structure Driver where
  age : ℕ
  alcohol_in_blood : ℚ
  licence : Option Licence
deriving DecidableEq

/-- `DriverError` from the source, one variant per rule failure. -/
inductive DriverError where
  | AboveAllowedAlcoholLevel (level : ℚ)
  | UnderRequiredAge (age : ℕ)
  | WithoutLicence
  | LicenceExpired (expiration : ℤ)
deriving DecidableEq

/-- `Licence::is_valid_in_date`: `self.expiration >= date`. -/
def Licence.is_valid_in_date (l : Licence) (date : ℤ) : Bool :=
  decide (l.expiration ≥ date)

/-- The result type of `Rule::run`: `Result<(), DriverError>`. -/
abbrev RuleResult := Except DriverError Unit

/-- A boxed `dyn Rule<Driver, DriverError>` trait object, as a pure function. -/
abbrev DriverRule := Driver → RuleResult

/-- `IsSober`: configured with an allowed alcohol level. -/
structure IsSober where
  allowed_level : ℚ

/-- `IsSober::run`: fail with `AboveAllowedAlcoholLevel` when
`alcohol_in_blood > allowed_level`, otherwise pass. -/
def IsSober.run (rule : IsSober) (driver : Driver) : RuleResult :=
  if driver.alcohol_in_blood > rule.allowed_level then
    .error (.AboveAllowedAlcoholLevel driver.alcohol_in_blood)
  else
    .ok ()

/-- `HasAge`: configured with a required minimum age. -/
structure HasAge where
  required_age : ℕ

/-- `HasAge::run`: fail with `UnderRequiredAge` when `age < required_age`,
otherwise pass. -/
def HasAge.run (rule : HasAge) (driver : Driver) : RuleResult :=
  if driver.age < rule.required_age then
    .error (.UnderRequiredAge driver.age)
  else
    .ok ()

/-- `HasDrivingLicence`: a field-less rule. -/
structure HasDrivingLicence where

/-- `HasDrivingLicence::run`:
`driver.licence.map_or(Err(WithoutLicence), |_| Ok(()))`. -/
def HasDrivingLicence.run (_ : HasDrivingLicence) (driver : Driver) : RuleResult :=
  driver.licence.elim (.error .WithoutLicence) (fun _ => .ok ())

/-- `HasValidDrivingLicence`: configured with a reference date. -/
structure HasValidDrivingLicence where
  date : ℤ

/-- `HasValidDrivingLicence::run`: pass when no licence is present; when one
is present, fail with `LicenceExpired(expiration)` unless it is valid in
`self.date`. -/
def HasValidDrivingLicence.run (rule : HasValidDrivingLicence) (driver : Driver) : RuleResult :=
  driver.licence.elim (.ok ()) (fun licence =>
    if ! licence.is_valid_in_date rule.date then
      .error (.LicenceExpired licence.expiration)
    else
      .ok ())

/-- `Result::unwrap_err`, with the panic on an `Ok` value modelled as `none`. -/
def Result.unwrap_err : RuleResult → Option DriverError
  | .error e => some e
  | .ok _ => none

/-- `DriverValidator`: an ordered list of boxed rules. -/
structure DriverValidator where
  rules : List DriverRule

/-- `DriverValidator::new`: direct construction from an ordered rule list. -/
def DriverValidator.new (rules : List DriverRule) : DriverValidator :=
  ⟨rules⟩

/-- `DriverValidator::validate`: run every rule on the driver, partition the
results by `Result::is_ok`, and unwrap the error partition. A panic of
`unwrap_err` (impossible, as proved below) would surface as `none`. -/
def DriverValidator.validate (v : DriverValidator) (driver : Driver) :
    Option (List DriverError) :=
  let parts := (v.rules.map (fun rule => rule driver)).partition Except.isOk
  parts.2.mapM Result.unwrap_err

/-- `DriverValidatorBuilder`: accumulates rules one at a time. -/
structure DriverValidatorBuilder where
  rules : List DriverRule

/-- `DriverValidatorBuilder::new`: starts with no rules. -/
def DriverValidatorBuilder.new : DriverValidatorBuilder :=
  ⟨[]⟩

/-- `DriverValidatorBuilder::with_rule`: `self.rules.push(rule)` appends at
the end, then returns the builder. -/
def DriverValidatorBuilder.with_rule (b : DriverValidatorBuilder) (rule : DriverRule) :
    DriverValidatorBuilder :=
  ⟨b.rules ++ [rule]⟩

/-- `DriverValidatorBuilder::build`: finalize into a `DriverValidator`. -/
def DriverValidatorBuilder.build (b : DriverValidatorBuilder) : DriverValidator :=
  ⟨b.rules⟩

/-- `Display` rendering of `DriverError`, from the `thiserror` format strings;
the `Display` of the numeric payloads is abstracted as `toString`. -/
def DriverError.render : DriverError → String
  | .AboveAllowedAlcoholLevel level => "Alcohol level is: " ++ toString level ++ " grams/lt "
  | .UnderRequiredAge age => "Age is: " ++ toString age ++ " years"
  | .WithoutLicence => "Without licence"
  | .LicenceExpired expiration => "Licence expired on date: " ++ toString expiration

/-! ### Helper lemmas about `validate` -/

theorem unwrap_err_ok : Result.unwrap_err (.ok ()) = none := rfl

theorem unwrap_err_error (e : DriverError) : Result.unwrap_err (.error e) = some e := rfl

/-- Mapping `unwrap_err` over the error partition never hits the panicking
branch: every element of the partition is an `error`. -/
theorem filter_cons_ok (u : Unit) (rs : List RuleResult) :
    (Except.ok u :: rs : List RuleResult).filter (fun r => ! r.isOk) =
      rs.filter (fun r => ! r.isOk) := by
  simp [List.filter_cons, Except.isOk, Except.toBool]

theorem filter_cons_error (e : DriverError) (rs : List RuleResult) :
    (Except.error e :: rs : List RuleResult).filter (fun r => ! r.isOk) =
      Except.error e :: rs.filter (fun r => ! r.isOk) := by
  simp [List.filter_cons, Except.isOk, Except.toBool]

theorem mapM_unwrap_err_filter (results : List RuleResult) :
    (results.filter (fun r => ! r.isOk)).mapM Result.unwrap_err =
      some (results.filterMap Result.unwrap_err) := by
  induction results with
  | nil => rfl
  | cons r rs ih =>
    cases r with
    | ok u =>
      rw [filter_cons_ok]
      simp only [List.filterMap_cons, Result.unwrap_err]
      exact ih
    | error e =>
      rw [filter_cons_error, List.mapM_cons, ih]
      simp [List.filterMap_cons, Result.unwrap_err]

/-- Closed form of `validate`: it returns `some` of the errors of the failing
rules, collected by `filterMap` in rule order. -/
theorem validate_eq_filterMap (v : DriverValidator) (d : Driver) :
    v.validate d = some ((v.rules.map (fun rule => rule d)).filterMap Result.unwrap_err) := by
  unfold DriverValidator.validate
  simp only [List.partition_eq_filter_filter]
  exact mapM_unwrap_err_filter _

/-- The number of collected errors equals the number of failing results. -/
theorem length_filterMap_unwrap_err (results : List RuleResult) :
    (results.filterMap Result.unwrap_err).length =
      (results.filter (fun r => ! r.isOk)).length := by
  induction results with
  | nil => rfl
  | cons r rs ih =>
    cases r with
    | ok u =>
      rw [filter_cons_ok]
      simp only [List.filterMap_cons, Result.unwrap_err]
      exact ih
    | error e =>
      rw [filter_cons_error]
      simp only [List.filterMap_cons, Result.unwrap_err, List.length_cons, ih]

/-! ### Claims -/

/-- Claim C1: for every driver and every list of rules, `validate` runs all
contained rules without short-circuiting: its result is `some` of the
`filterMap` of every rule's outcome in insertion order, so it holds exactly
one error per failing rule, none for a passing rule, and its length equals
the number of failing rules. -/
theorem validate_reports_all_failures_in_order (v : DriverValidator) (d : Driver) :
    v.validate d = some ((v.rules.map (fun rule => rule d)).filterMap Result.unwrap_err) ∧
    (∀ errs, v.validate d = some errs →
      errs.length = (v.rules.filter (fun rule => ! (rule d).isOk)).length) := by
  refine ⟨validate_eq_filterMap v d, fun errs herrs => ?_⟩
  rw [validate_eq_filterMap v d] at herrs
  cases herrs
  rw [length_filterMap_unwrap_err, List.filter_map]
  simp [Function.comp_def]

/-- Witness for C1 at a concrete validator and driver. -/
theorem validate_reports_all_failures_in_order_witness :
    (DriverValidator.new [(HasAge.mk 18).run]).validate (Driver.mk 17 0 none) =
      some [DriverError.UnderRequiredAge 17] ∧
    ([DriverError.UnderRequiredAge 17] : List DriverError).length = 1 := by
  have h := validate_reports_all_failures_in_order
    (DriverValidator.new [(HasAge.mk 18).run]) (Driver.mk 17 0 none)
  refine ⟨?_, ?_⟩
  · rw [h.1]; rfl
  · have := h.2 [DriverError.UnderRequiredAge 17] (by rw [h.1]; rfl)
    exact this.trans rfl

/-- Claim C10: `validate` never panics: the `unwrap_err` in the error branch
is never applied to an `Ok` value, so the modelled panic (`none`) is
unreachable for every validator and driver. -/
theorem validate_never_panics (v : DriverValidator) (d : Driver) :
    (v.validate d).isSome = true := by
  rw [validate_eq_filterMap v d]
  rfl

/-- Claim C2: `HasValidDrivingLicence::run` passes vacuously when no licence
is present, passes when a licence is present with expiration at or after the
reference date (the exact-match instant still passes), and fails with
`LicenceExpired(expiration)` exactly when a licence is present whose
expiration is strictly before the reference date. -/
theorem has_valid_run_some (rule : HasValidDrivingLicence) (driver : Driver) (licence : Licence)
    (hl : driver.licence = some licence) :
    rule.run driver = if licence.expiration < rule.date
      then .error (.LicenceExpired licence.expiration) else .ok () := by
  simp [HasValidDrivingLicence.run, hl, Licence.is_valid_in_date]

theorem has_valid_driving_licence_spec (rule : HasValidDrivingLicence) (driver : Driver) :
    (driver.licence = none → rule.run driver = .ok ()) ∧
    (∀ licence, driver.licence = some licence → rule.date ≤ licence.expiration →
      rule.run driver = .ok ()) ∧
    (∀ e, rule.run driver = .error e ↔
      ∃ licence, driver.licence = some licence ∧ licence.expiration < rule.date ∧
        e = .LicenceExpired licence.expiration) := by
  cases hl : driver.licence with
  | none =>
    refine ⟨fun _ => ?_, fun licence hs _ => ?_, fun e => ?_⟩
    · simp [HasValidDrivingLicence.run, hl]
    · cases hs
    · simp [HasValidDrivingLicence.run, hl]
  | some licence =>
    have hrun := has_valid_run_some rule driver licence hl
    refine ⟨fun hn => ?_, fun l hs hle => ?_, fun e => ?_⟩
    · cases hn
    · cases hs
      rw [hrun, if_neg (not_lt.mpr hle)]
    · rw [hrun]
      rcases lt_or_le licence.expiration rule.date with hlt | hle
      · rw [if_pos hlt]
        constructor
        · intro he
          injection he with h
          exact ⟨licence, rfl, hlt, h.symm⟩
        · rintro ⟨l, hs, hlt2, he⟩
          cases hs
          rw [he]
      · rw [if_neg (not_lt.mpr hle)]
        constructor
        · intro he; cases he
        · rintro ⟨l, hs, hlt2, he⟩
          cases hs
          exact absurd hlt2 (not_lt.mpr hle)

/-- Witness for C2: a driver with no licence passes; a licence expiring at the
reference instant passes; a licence expired strictly before it fails. -/
theorem has_valid_driving_licence_spec_witness :
    (HasValidDrivingLicence.mk 10).run (Driver.mk 30 0 none) = .ok () ∧
    (HasValidDrivingLicence.mk 10).run (Driver.mk 30 0 (some (Licence.mk .A 10))) = .ok () ∧
    (HasValidDrivingLicence.mk 10).run (Driver.mk 30 0 (some (Licence.mk .A 3))) =
      .error (.LicenceExpired 3) :=
  ⟨(has_valid_driving_licence_spec (HasValidDrivingLicence.mk 10) (Driver.mk 30 0 none)).1 rfl,
   (has_valid_driving_licence_spec (HasValidDrivingLicence.mk 10)
      (Driver.mk 30 0 (some (Licence.mk .A 10)))).2.1 (Licence.mk .A 10) rfl (by decide),
   ((has_valid_driving_licence_spec (HasValidDrivingLicence.mk 10)
      (Driver.mk 30 0 (some (Licence.mk .A 3)))).2.2 (.LicenceExpired 3)).mpr
     ⟨Licence.mk .A 3, rfl, by decide, rfl⟩⟩

/-- Claim C3: `IsSober::run` passes when `alcohol_in_blood` is at or below the
configured `allowed_level` and fails with
`AboveAllowedAlcoholLevel(alcohol_in_blood)` exactly when `alcohol_in_blood`
is strictly greater than `allowed_level`. -/
theorem is_sober_spec (rule : IsSober) (driver : Driver) :
    (driver.alcohol_in_blood ≤ rule.allowed_level → rule.run driver = .ok ()) ∧
    (rule.allowed_level < driver.alcohol_in_blood ↔
      rule.run driver = .error (.AboveAllowedAlcoholLevel driver.alcohol_in_blood)) ∧
    (∀ e, rule.run driver = .error e →
      rule.allowed_level < driver.alcohol_in_blood ∧
        e = .AboveAllowedAlcoholLevel driver.alcohol_in_blood) := by
  unfold IsSober.run
  rcases le_or_lt driver.alcohol_in_blood rule.allowed_level with h | h
  · rw [if_neg (not_lt.mpr h)]
    exact ⟨fun _ => rfl,
      ⟨fun hlt => absurd hlt (not_lt.mpr h), fun heq => by cases heq⟩,
      fun e heq => by cases heq⟩
  · rw [if_pos h]
    exact ⟨fun hle => absurd h (not_lt.mpr hle),
      ⟨fun _ => rfl, fun _ => h⟩,
      fun e heq => ⟨h, by cases heq; rfl⟩⟩

/-- Witness for C3: alcohol equal to the allowed level passes; alcohol
strictly above it fails with the measured value. -/
theorem is_sober_spec_witness :
    (IsSober.mk (1/2)).run (Driver.mk 20 (1/2) none) = .ok () ∧
    (IsSober.mk (1/2)).run (Driver.mk 20 (3/4) none) =
      .error (.AboveAllowedAlcoholLevel (3/4)) :=
  ⟨(is_sober_spec (IsSober.mk (1/2)) (Driver.mk 20 (1/2) none)).1 (by norm_num),
   (is_sober_spec (IsSober.mk (1/2)) (Driver.mk 20 (3/4) none)).2.1.mp (by norm_num)⟩

/-- Claim C4: `HasAge::run` passes when the driver's age is at or above the
configured `required_age` and fails with `UnderRequiredAge(age)` exactly when
the age is strictly less than `required_age`. -/
theorem has_age_spec (rule : HasAge) (driver : Driver) :
    (rule.required_age ≤ driver.age → rule.run driver = .ok ()) ∧
    (driver.age < rule.required_age ↔
      rule.run driver = .error (.UnderRequiredAge driver.age)) ∧
    (∀ e, rule.run driver = .error e →
      driver.age < rule.required_age ∧ e = .UnderRequiredAge driver.age) := by
  unfold HasAge.run
  rcases le_or_lt rule.required_age driver.age with h | h
  · rw [if_neg (not_lt.mpr h)]
    exact ⟨fun _ => rfl,
      ⟨fun hlt => absurd hlt (not_lt.mpr h), fun heq => by cases heq⟩,
      fun e heq => by cases heq⟩
  · rw [if_pos h]
    exact ⟨fun hle => absurd h (not_lt.mpr hle),
      ⟨fun _ => rfl, fun _ => h⟩,
      fun e heq => ⟨h, by cases heq; rfl⟩⟩

/-- Witness for C4: age equal to the required age passes; one year less fails
with the measured age. -/
theorem has_age_spec_witness :
    (HasAge.mk 18).run (Driver.mk 18 0 none) = .ok () ∧
    (HasAge.mk 18).run (Driver.mk 17 0 none) = .error (.UnderRequiredAge 17) :=
  ⟨(has_age_spec (HasAge.mk 18) (Driver.mk 18 0 none)).1 (by decide),
   (has_age_spec (HasAge.mk 18) (Driver.mk 17 0 none)).2.1.mp (by decide)⟩

/-- Claim C5: `HasDrivingLicence::run` fails with `WithoutLicence` if and only
if the driver's licence is absent; any present licence, regardless of
category or expiration, passes. -/
theorem has_driving_licence_spec (rule : HasDrivingLicence) (driver : Driver) :
    (rule.run driver = .error .WithoutLicence ↔ driver.licence = none) ∧
    (∀ e, rule.run driver = .error e → e = .WithoutLicence) ∧
    (∀ licence, driver.licence = some licence → rule.run driver = .ok ()) := by
  cases hl : driver.licence with
  | none =>
    refine ⟨by simp [HasDrivingLicence.run, hl], fun e heq => ?_, fun licence hs => ?_⟩
    · simp [HasDrivingLicence.run, hl] at heq
      exact heq.symm
    · cases hs
  | some licence =>
    refine ⟨by simp [HasDrivingLicence.run, hl], fun e heq => ?_, fun l hs => ?_⟩
    · simp [HasDrivingLicence.run, hl] at heq
    · simp [HasDrivingLicence.run, hl]

/-- Witness for C5: no licence fails with `WithoutLicence`; an expired licence
of some category still passes this rule. -/
theorem has_driving_licence_spec_witness :
    HasDrivingLicence.mk.run (Driver.mk 20 0 none) = .error .WithoutLicence ∧
    HasDrivingLicence.mk.run (Driver.mk 20 0 (some (Licence.mk .B (-5)))) = .ok () :=
  ⟨(has_driving_licence_spec HasDrivingLicence.mk (Driver.mk 20 0 none)).1.mpr rfl,
   (has_driving_licence_spec HasDrivingLicence.mk
      (Driver.mk 20 0 (some (Licence.mk .B (-5))))).2.2 (Licence.mk .B (-5)) rfl⟩

theorem foldl_with_rule (acc : DriverValidatorBuilder) (rules : List DriverRule) :
    rules.foldl DriverValidatorBuilder.with_rule acc =
      DriverValidatorBuilder.mk (acc.rules ++ rules) := by
  induction rules generalizing acc with
  | nil => simp
  | cons r rs ih =>
    rw [List.foldl_cons, ih]
    simp [DriverValidatorBuilder.with_rule]

/-- Claim C6: building a validator by starting from `DriverValidatorBuilder::new`
and appending each rule in order with `with_rule`, then calling `build`,
yields the same validator as direct construction with `DriverValidator::new`
on the same ordered list, so `validate` agrees on every driver. -/
theorem builder_equivalent_to_direct_construction (rules : List DriverRule) :
    (rules.foldl DriverValidatorBuilder.with_rule DriverValidatorBuilder.new).build =
      DriverValidator.new rules ∧
    ∀ driver,
      ((rules.foldl DriverValidatorBuilder.with_rule DriverValidatorBuilder.new).build).validate
          driver =
        (DriverValidator.new rules).validate driver := by
  have h : (rules.foldl DriverValidatorBuilder.with_rule DriverValidatorBuilder.new).build =
      DriverValidator.new rules := by
    rw [foldl_with_rule]
    simp [DriverValidatorBuilder.new, DriverValidatorBuilder.build, DriverValidator.new]
  exact ⟨h, fun driver => by rw [h]⟩

/-- The end-to-end scenario driver: age 17, alcohol 0.3, no licence. -/
def scenarioDriver : Driver :=
  Driver.mk 17 (3/10) none

/-- The end-to-end scenario validator, built with the builder:
`HasDrivingLicence`, then `IsSober(0.49)`, then `HasAge(18)`. -/
def scenarioValidator : DriverValidator :=
  (((DriverValidatorBuilder.new.with_rule
        (HasDrivingLicence.mk.run)).with_rule
        ((IsSober.mk (49/100)).run)).with_rule
        ((HasAge.mk 18).run)).build

/-- Claim C7: validating the scenario driver against the scenario validator
returns exactly the two errors `[WithoutLicence, UnderRequiredAge 17]`, in
that order; `IsSober` contributes no error since `0.3 ≤ 0.49`. -/
theorem scenario_returns_two_errors_in_order :
    scenarioValidator.validate scenarioDriver =
      some [DriverError.WithoutLicence, DriverError.UnderRequiredAge 17] := by
  rw [validate_eq_filterMap]
  have hrules : scenarioValidator.rules =
      [HasDrivingLicence.mk.run, (IsSober.mk (49/100)).run, (HasAge.mk 18).run] := rfl
  have h1 : HasDrivingLicence.mk.run scenarioDriver = .error .WithoutLicence := rfl
  have h2 : (IsSober.mk (49/100)).run scenarioDriver = .ok () := by
    have hq : ¬ ((49/100 : ℚ) < 3/10) := by norm_num
    simp [IsSober.run, scenarioDriver, hq]
  have h3 : (HasAge.mk 18).run scenarioDriver = .error (.UnderRequiredAge 17) := rfl
  rw [hrules]
  simp only [List.map_cons, List.map_nil, h1, h2, h3, List.filterMap_cons,
    List.filterMap_nil, Result.unwrap_err]

/-- Claim C8: `validate` is deterministic and free of hidden state: it is a
pure function of the validator's rule outcomes on the driver (so repeated
invocation of the same pair yields identical results), and in the embedding
neither the validator's rule list nor the driver can be mutated, as rules
take shared references. -/
theorem validate_deterministic_no_hidden_state (v w : DriverValidator) (d e : Driver)
    (h : v.rules.map (fun rule => rule d) = w.rules.map (fun rule => rule e)) :
    v.validate d = v.validate d ∧ v.validate d = w.validate e := by
  refine ⟨rfl, ?_⟩
  rw [validate_eq_filterMap, validate_eq_filterMap, h]

/-- Witness for C8 at a concrete validator and driver. -/
theorem validate_deterministic_no_hidden_state_witness :
    (DriverValidator.new [(HasAge.mk 18).run]).validate (Driver.mk 20 0 none) =
      (DriverValidator.new [(HasAge.mk 18).run]).validate (Driver.mk 20 0 none) :=
  (validate_deterministic_no_hidden_state
    (DriverValidator.new [(HasAge.mk 18).run]) (DriverValidator.new [(HasAge.mk 18).run])
    (Driver.mk 20 0 none) (Driver.mk 20 0 none) rfl).2

/-- Claim C9: the rendering of each `DriverError` variant follows the stable
format of the source's error attributes: `AboveAllowedAlcoholLevel` renders
the measured value with the unit string, `UnderRequiredAge` renders the age
with the unit, `WithoutLicence` is a fixed message, and `LicenceExpired`
renders the expiration timestamp. -/
theorem driver_error_render_format (level : ℚ) (age : ℕ) (expiration : ℤ) :
    DriverError.render (.AboveAllowedAlcoholLevel level) =
      "Alcohol level is: " ++ toString level ++ " grams/lt " ∧
    DriverError.render (.UnderRequiredAge age) =
      "Age is: " ++ toString age ++ " years" ∧
    DriverError.render .WithoutLicence = "Without licence" ∧
    DriverError.render (.LicenceExpired expiration) =
      "Licence expired on date: " ++ toString expiration :=
  ⟨rfl, rfl, rfl, rfl⟩

end RulesRs
